import Mathlib

/-!
Verification of the geometric core of the distortionizer repository
(angles_to_config/types.h).  Machine doubles are modelled by exact
rationals where only field arithmetic occurs, and by real numbers where
transcendental functions (atan2, sqrt) are involved.
-/

/-- Axis-aligned rectangle bounds, mirroring `RectBounds<T>` from types.h. -/
structure RectBounds (α : Type) where
  left : α
  right : α
  top : α
  bottom : α
deriving DecidableEq

/-- `RectBounds<T>::reflectedHorizontally`: returns `{-right, -left, top, bottom}`. -/
def RectBounds.reflectedHorizontally {α : Type} [Neg α] (b : RectBounds α) :
    RectBounds α :=
  ⟨-b.right, -b.left, b.top, b.bottom⟩

/-- `Point2d = std::array<double, 2>`; component 0 is the first projection,
component 1 the second. -/
abbrev Point2d : Type := ℚ × ℚ

/-- `LongLat`: gentle wrapper around Point2d assigning longitude and latitude
meaning (respectively) to the elements. -/
structure LongLat where
  longLat : Point2d
deriving DecidableEq

/-- `LongLat::longitude() const`: reads element 0 of the underlying array. -/
def LongLat.longitude (ll : LongLat) : ℚ := ll.longLat.1

/-- `LongLat::latitude() const`: reads element 1 of the underlying array. -/
def LongLat.latitude (ll : LongLat) : ℚ := ll.longLat.2

/-- `LongLat::longitude()` (mutable reference) used as an assignment:
writes element 0 of the underlying array. -/
def LongLat.setLongitude (ll : LongLat) (v : ℚ) : LongLat :=
  ⟨(v, ll.longLat.2)⟩

/-- `LongLat::latitude()` (mutable reference) used as an assignment:
writes element 1 of the underlying array. -/
def LongLat.setLatitude (ll : LongLat) (v : ℚ) : LongLat :=
  ⟨(ll.longLat.1, v)⟩

/-- `Config` from types.h: all fields, in declaration order. -/
structure Config where
  useRightEye : Bool
  computeScreenBounds : Bool
  suppliedScreenBounds : RectBounds ℚ
  useFieldAngles : Bool
  toMeters : ℚ
  depth : ℚ
  verifyAngles : Bool
  xx : ℚ
  xy : ℚ
  yx : ℚ
  yy : ℚ
  maxAngleDiffDegrees : ℚ
  verbose : Bool
deriving DecidableEq

/-- A default-constructed `Config`.  The C++ default member initializers fix
`useRightEye`, `computeScreenBounds`, `useFieldAngles`, `toMeters`, `depth`,
`verifyAngles` and `verbose`; the fields `suppliedScreenBounds`,
`xx`, `xy`, `yx`, `yy` and `maxAngleDiffDegrees` have no initializer and are
indeterminate, so they are taken as parameters here. -/
def Config.defaultCtor (ssb : RectBounds ℚ) (pxx pxy pyx pyy pmad : ℚ) :
    Config :=
  ⟨false, true, ssb, true, 1, 2, false, pxx, pxy, pyx, pyy, pmad, false⟩

/-- `XYLatLong`: screen-space to/from angle-space map entry. -/
structure XYLatLong (α : Type) where
  x : α
  y : α
  latitude : α
  longitude : α
deriving DecidableEq

/-- The four-argument `XYLatLong` constructor: assigns
`x = px; y = py; latitude = plat; longitude = plong`. -/
def XYLatLong.make {α : Type} (px py plat plong : α) : XYLatLong α :=
  ⟨px, py, plat, plong⟩

/-- The default `XYLatLong` constructor: all fields zero. -/
def XYLatLong.defaultCtor {α : Type} [Zero α] : XYLatLong α :=
  ⟨0, 0, 0, 0⟩

/-- `XYZ`: 3D coordinate. -/
structure XYZ (α : Type) where
  x : α
  y : α
  z : α
deriving DecidableEq

/-- The three-argument `XYZ` constructor. -/
def XYZ.make {α : Type} (px py pz : α) : XYZ α := ⟨px, py, pz⟩

/-- The default `XYZ` constructor: all fields zero. -/
def XYZ.defaultCtor {α : Type} [Zero α] : XYZ α := ⟨0, 0, 0⟩

/-- `XYZ::projectOntoPlane(A, B, C, D)`: central projection from the origin
through the point onto the plane `Ax + By + Cz + D = 0`, computed exactly as
in the source: `s = -D / (A*x + B*y + C*z)`, result `(s*x, s*y, s*z)`. -/
def XYZ.projectOntoPlane {α : Type} [Field α] (p : XYZ α) (A B C D : α) :
    XYZ α :=
  let s : α := -D / (A * p.x + B * p.y + C * p.z)
  ⟨s * p.x, s * p.y, s * p.z⟩

/-- `Mapping`: one `XYLatLong` sample paired with its 3D coordinate. -/
structure Mapping where
  xyLatLong : XYLatLong ℚ
  xyz : XYZ ℚ
deriving DecidableEq

/-- The two-argument `Mapping` constructor. -/
def Mapping.make (ll : XYLatLong ℚ) (p : XYZ ℚ) : Mapping := ⟨ll, p⟩

/-- C4: for every `RectBounds` `b`, `b.reflectedHorizontally()` has
`left = -b.right` and `right = -b.left` with `top` and `bottom` unchanged,
and applying `reflectedHorizontally` twice returns the original bounds. -/
theorem RectBounds.reflectedHorizontally_spec {α : Type} [SubtractionMonoid α]
    (b : RectBounds α) :
    (b.reflectedHorizontally.left = -b.right ∧
      b.reflectedHorizontally.right = -b.left ∧
      b.reflectedHorizontally.top = b.top ∧
      b.reflectedHorizontally.bottom = b.bottom) ∧
    b.reflectedHorizontally.reflectedHorizontally = b := by
  refine ⟨⟨rfl, rfl, rfl, rfl⟩, ?_⟩
  simp [RectBounds.reflectedHorizontally]

/-- C8: in `LongLat`, `longitude()` reads and writes the first component of
the underlying `Point2d` and `latitude()` reads and writes the second
component. -/
theorem LongLat.access_spec (ll : LongLat) (v : ℚ) :
    ll.longitude = ll.longLat.1 ∧
    ll.latitude = ll.longLat.2 ∧
    (ll.setLongitude v).longLat.1 = v ∧
    (ll.setLongitude v).longLat.2 = ll.longLat.2 ∧
    (ll.setLatitude v).longLat.2 = v ∧
    (ll.setLatitude v).longLat.1 = ll.longLat.1 := by
  exact ⟨rfl, rfl, rfl, rfl, rfl, rfl⟩

/-- C9: a default-constructed `Config` has `useRightEye = false`,
`computeScreenBounds = true`, `useFieldAngles = true`, `toMeters = 1`,
`depth = 2`, `verifyAngles = false`, `verbose = false`, while
`suppliedScreenBounds`, `xx`, `xy`, `yx`, `yy` and `maxAngleDiffDegrees`
are left indeterminate (they equal whatever garbage values parameterize the
construction). -/
theorem Config.defaultCtor_spec (ssb : RectBounds ℚ)
    (pxx pxy pyx pyy pmad : ℚ) :
    (Config.defaultCtor ssb pxx pxy pyx pyy pmad).useRightEye = false ∧
    (Config.defaultCtor ssb pxx pxy pyx pyy pmad).computeScreenBounds = true ∧
    (Config.defaultCtor ssb pxx pxy pyx pyy pmad).useFieldAngles = true ∧
    (Config.defaultCtor ssb pxx pxy pyx pyy pmad).toMeters = 1 ∧
    (Config.defaultCtor ssb pxx pxy pyx pyy pmad).depth = 2 ∧
    (Config.defaultCtor ssb pxx pxy pyx pyy pmad).verifyAngles = false ∧
    (Config.defaultCtor ssb pxx pxy pyx pyy pmad).verbose = false ∧
    (Config.defaultCtor ssb pxx pxy pyx pyy pmad).suppliedScreenBounds = ssb ∧
    (Config.defaultCtor ssb pxx pxy pyx pyy pmad).xx = pxx ∧
    (Config.defaultCtor ssb pxx pxy pyx pyy pmad).xy = pxy ∧
    (Config.defaultCtor ssb pxx pxy pyx pyy pmad).yx = pyx ∧
    (Config.defaultCtor ssb pxx pxy pyx pyy pmad).yy = pyy ∧
    (Config.defaultCtor ssb pxx pxy pyx pyy pmad).maxAngleDiffDegrees = pmad := by
  exact ⟨rfl, rfl, rfl, rfl, rfl, rfl, rfl, rfl, rfl, rfl, rfl, rfl, rfl⟩

/-- C7: an `XYLatLong` constructed with `(px, py, plat, plong)` has exactly
those field values, and no operation of the program changes them afterward:
the only program operation consuming an `XYLatLong` (storing it in a
`Mapping`) preserves it, and every access is read-only. -/
theorem XYLatLong.immutable_spec (px py plat plong : ℚ) :
    (XYLatLong.make px py plat plong).x = px ∧
    (XYLatLong.make px py plat plong).y = py ∧
    (XYLatLong.make px py plat plong).latitude = plat ∧
    (XYLatLong.make px py plat plong).longitude = plong ∧
    ∀ p : XYZ ℚ,
      (Mapping.make (XYLatLong.make px py plat plong) p).xyLatLong =
        XYLatLong.make px py plat plong := by
  exact ⟨rfl, rfl, rfl, rfl, fun _ => rfl⟩

/-- The division in `projectOntoPlane` made explicit as a fallible step:
returns `none` exactly when the divisor `A*x + B*y + C*z` is zero (the ray
from the origin through the point is parallel to the plane), and otherwise
the same result as `projectOntoPlane`. -/
def XYZ.projectOntoPlaneChecked {α : Type} [Field α] [DecidableEq α]
    (p : XYZ α) (A B C D : α) : Option (XYZ α) :=
  let denom : α := A * p.x + B * p.y + C * p.z
  if denom = 0 then none
  else
    let s : α := -D / denom
    some ⟨s * p.x, s * p.y, s * p.z⟩

/-- C1: for every plane `(A,B,C,D)` and every point `P` whose denominator
`A*Px + B*Py + C*Pz` is nonzero, `Q = P.projectOntoPlane(A,B,C,D)` lies on
the plane (`A*Qx + B*Qy + C*Qz + D = 0`) and `Q` is a scalar multiple of
`P` (hence collinear with the origin and `P`). -/
theorem XYZ.projectOntoPlane_on_plane_collinear {α : Type} [Field α]
    (A B C D : α) (p : XYZ α) (h : A * p.x + B * p.y + C * p.z ≠ 0) :
    (A * (p.projectOntoPlane A B C D).x + B * (p.projectOntoPlane A B C D).y +
        C * (p.projectOntoPlane A B C D).z + D = 0) ∧
    ∃ s : α, (p.projectOntoPlane A B C D).x = s * p.x ∧
      (p.projectOntoPlane A B C D).y = s * p.y ∧
      (p.projectOntoPlane A B C D).z = s * p.z := by
  constructor
  · show A * (-D / (A * p.x + B * p.y + C * p.z) * p.x) +
        B * (-D / (A * p.x + B * p.y + C * p.z) * p.y) +
        C * (-D / (A * p.x + B * p.y + C * p.z) * p.z) + D = 0
    field_simp
    ring
  · exact ⟨-D / (A * p.x + B * p.y + C * p.z), rfl, rfl, rfl⟩

/-- Witness for C1: plane `(1,0,0,-2)` and point `(1,1,1)` have denominator
`1 ≠ 0`; the projected point lies on the plane and is a multiple of the
input. -/
theorem XYZ.projectOntoPlane_on_plane_collinear_witness :
    ((1 : ℚ) * (1 : ℚ) + 0 * 1 + 0 * 1 ≠ 0) ∧
    ((1 : ℚ) * ((XYZ.mk 1 1 1).projectOntoPlane 1 0 0 (-2)).x +
        0 * ((XYZ.mk 1 1 1).projectOntoPlane 1 0 0 (-2)).y +
        0 * ((XYZ.mk 1 1 1).projectOntoPlane 1 0 0 (-2)).z + (-2) = 0 ∧
      ∃ s : ℚ, ((XYZ.mk 1 1 1).projectOntoPlane 1 0 0 (-2)).x = s * 1 ∧
        ((XYZ.mk 1 1 1).projectOntoPlane 1 0 0 (-2)).y = s * 1 ∧
        ((XYZ.mk 1 1 1).projectOntoPlane 1 0 0 (-2)).z = s * 1) :=
  ⟨by norm_num,
    XYZ.projectOntoPlane_on_plane_collinear 1 0 0 (-2) (XYZ.mk 1 1 1)
      (by norm_num)⟩

/-- C2: the projection fails exactly when the denominator `A*x + B*y + C*z`
is zero (the ray through the origin is parallel to the plane); when the
denominator is nonzero the guarded computation performs no division by zero
and agrees with `projectOntoPlane`. -/
theorem XYZ.projectOntoPlaneChecked_spec {α : Type} [Field α] [DecidableEq α]
    (p : XYZ α) (A B C D : α) :
    (A * p.x + B * p.y + C * p.z = 0 →
      p.projectOntoPlaneChecked A B C D = none) ∧
    (A * p.x + B * p.y + C * p.z ≠ 0 →
      p.projectOntoPlaneChecked A B C D = some (p.projectOntoPlane A B C D)) := by
  constructor
  · intro h
    simp [XYZ.projectOntoPlaneChecked, h]
  · intro h
    simp [XYZ.projectOntoPlaneChecked, XYZ.projectOntoPlane, h]

/-- Witness for C2: the point `(0,1,0)` is parallel to the plane
`x + z - 1 = 0` (denominator `0`), so the checked projection fails there;
the point `(1,1,1)` has denominator `2 ≠ 0`, so the checked projection
succeeds and agrees with `projectOntoPlane`. -/
theorem XYZ.projectOntoPlaneChecked_spec_witness :
    ((XYZ.mk (0 : ℚ) 1 0).projectOntoPlaneChecked 1 0 1 (-1) = none) ∧
    ((XYZ.mk (1 : ℚ) 1 1).projectOntoPlaneChecked 1 0 1 (-1) =
      some ((XYZ.mk (1 : ℚ) 1 1).projectOntoPlane 1 0 1 (-1))) :=
  ⟨((XYZ.mk (0 : ℚ) 1 0).projectOntoPlaneChecked_spec 1 0 1 (-1)).1 (by norm_num),
    ((XYZ.mk (1 : ℚ) 1 1).projectOntoPlaneChecked_spec 1 0 1 (-1)).2 (by norm_num)⟩

/-- C10: if `D ≠ 0` and the point `P` already lies on the plane
(`A*Px + B*Py + C*Pz + D = 0`), then `P.projectOntoPlane(A,B,C,D) = P`. -/
theorem XYZ.projectOntoPlane_fixed_point {α : Type} [Field α]
    (A B C D : α) (p : XYZ α) (hD : D ≠ 0)
    (hOn : A * p.x + B * p.y + C * p.z + D = 0) :
    p.projectOntoPlane A B C D = p := by
  have hden : A * p.x + B * p.y + C * p.z = -D := by linear_combination hOn
  show XYZ.mk (-D / (A * p.x + B * p.y + C * p.z) * p.x)
      (-D / (A * p.x + B * p.y + C * p.z) * p.y)
      (-D / (A * p.x + B * p.y + C * p.z) * p.z) = p
  rw [hden, div_self (neg_ne_zero.mpr hD)]
  cases p
  simp

/-- Witness for C10: the point `(2, 5, 7)` lies on the plane
`x - 2 = 0` (so `D = -2 ≠ 0`), and projecting it returns it unchanged. -/
theorem XYZ.projectOntoPlane_fixed_point_witness :
    ((-2 : ℚ) ≠ 0) ∧ ((1 : ℚ) * 2 + 0 * 5 + 0 * 7 + (-2) = 0) ∧
    (XYZ.mk (2 : ℚ) 5 7).projectOntoPlane 1 0 0 (-2) = XYZ.mk 2 5 7 :=
  ⟨by norm_num, by norm_num,
    XYZ.projectOntoPlane_fixed_point 1 0 0 (-2) (XYZ.mk 2 5 7)
      (by norm_num) (by norm_num)⟩

/-- The C standard `atan2(y, x)`: the angle of the point `(x, y)`, in
`(-pi, pi]`, computed by the usual case split on the quadrant. -/
noncomputable def atan2 (y x : ℝ) : ℝ :=
  if 0 < x then Real.arctan (y / x)
  else if x < 0 ∧ 0 ≤ y then Real.arctan (y / x) + Real.pi
  else if x < 0 ∧ y < 0 then Real.arctan (y / x) - Real.pi
  else if 0 < y then Real.pi / 2
  else if y < 0 then -(Real.pi / 2)
  else 0

/-- `XYZ::rotationAboutY()`: `std::atan2(-x, -z)`. -/
noncomputable def XYZ.rotationAboutY (p : XYZ ℝ) : ℝ := atan2 (-p.x) (-p.z)

/-- `XYZ::distanceFrom(p)`: Euclidean distance, computed exactly as in the
source with explicit self-products. -/
noncomputable def XYZ.distanceFrom (a p : XYZ ℝ) : ℝ :=
  Real.sqrt ((a.x - p.x) * (a.x - p.x) + (a.y - p.y) * (a.y - p.y) +
    (a.z - p.z) * (a.z - p.z))

/-- C3: `rotationAboutY` computes `atan2(-x, -z)`; it maps `(0,0,-1)` to `0`,
`(-1,0,0)` to `+pi/2` and `(1,0,0)` to `-pi/2` (zero rotation points along
-Z, positive rotation turns toward -X). -/
theorem XYZ.rotationAboutY_spec :
    (∀ p : XYZ ℝ, p.rotationAboutY = atan2 (-p.x) (-p.z)) ∧
    (XYZ.mk (0 : ℝ) 0 (-1)).rotationAboutY = 0 ∧
    (XYZ.mk (-1 : ℝ) 0 0).rotationAboutY = Real.pi / 2 ∧
    (XYZ.mk (1 : ℝ) 0 0).rotationAboutY = -(Real.pi / 2) := by
  refine ⟨fun _ => rfl, ?_, ?_, ?_⟩
  · show atan2 (-(0 : ℝ)) (-(-1)) = 0
    norm_num [atan2]
  · show atan2 (-(-1 : ℝ)) (-(0 : ℝ)) = Real.pi / 2
    norm_num [atan2]
  · show atan2 (-(1 : ℝ)) (-(0 : ℝ)) = -(Real.pi / 2)
    norm_num [atan2]

/-- C6: `distanceFrom` equals the Euclidean distance
`sqrt((p.x-q.x)^2 + (p.y-q.y)^2 + (p.z-q.z)^2)`. -/
theorem XYZ.distanceFrom_spec (p q : XYZ ℝ) :
    p.distanceFrom q =
      Real.sqrt ((p.x - q.x) ^ 2 + (p.y - q.y) ^ 2 + (p.z - q.z) ^ 2) := by
  show Real.sqrt _ = _
  congr 1
  ring

/-- `ScreenDescription` from types.h: fitted screen parameters plus the
plane/extent byproducts threaded through to the mesh builder. -/
structure ScreenDescription where
  hFOVDegrees : ℚ
  vFOVDegrees : ℚ
  overlapPercent : ℚ
  xCOP : ℚ
  yCOP : ℚ
  A : ℚ
  B : ℚ
  C : ℚ
  D : ℚ
  screenLeft : XYZ ℚ
  screenRight : XYZ ℚ
  maxY : ℚ
deriving DecidableEq

/-- `MeshDescription` from types.h: ordered list of (from, to) pairs of
2D unit coordinates; the first component of each pair is the "from"
coordinate, the second the "to" coordinate. -/
abbrev MeshDescription : Type := List (Point2d × Point2d)

/-- Modelled from the spec: the normalization of a raw screen-space
coordinate into the unit convention of the `RectBounds` (values nominally
in `[-1, 1]`); the mesh builder that applies it is not under src/. -/
def toNormalized (b : RectBounds ℚ) (x y : ℚ) : Point2d :=
  (-1 + 2 * (x - b.left) / (b.right - b.left),
    -1 + 2 * (y - b.bottom) / (b.top - b.bottom))

/-- Modelled from the spec: the bounds used to normalize the "to"
coordinate — the left eye uses the bounds as given, the right eye uses
`reflectedHorizontally()`; the mesh builder that chooses them is not under
src/. -/
def meshBounds (cfg : Config) : RectBounds ℚ :=
  if cfg.useRightEye then cfg.suppliedScreenBounds.reflectedHorizontally
  else cfg.suppliedScreenBounds

/-- Modelled from the spec: one mesh entry of the mesh builder (not under
src/).  The angle-space direction is projected onto the fitted plane
(failing when the projection denominator is zero); the "from" coordinate is
the horizontal fraction along the left-right span together with the
vertical fraction scaled by `maxY`; the "to" coordinate is the sample's raw
screen position under the configured normalization. -/
def meshEntry (cfg : Config) (screen : ScreenDescription) (m : Mapping) :
    Option (Point2d × Point2d) :=
  let denom : ℚ :=
    screen.A * m.xyz.x + screen.B * m.xyz.y + screen.C * m.xyz.z
  if denom = 0 then none
  else
    let q := m.xyz.projectOntoPlane screen.A screen.B screen.C screen.D
    let ux := screen.screenRight.x - screen.screenLeft.x
    let uy := screen.screenRight.y - screen.screenLeft.y
    let uz := screen.screenRight.z - screen.screenLeft.z
    let frac := ((q.x - screen.screenLeft.x) * ux +
        (q.y - screen.screenLeft.y) * uy +
        (q.z - screen.screenLeft.z) * uz) / (ux * ux + uy * uy + uz * uz)
    let fromPt : Point2d := (-1 + 2 * frac, q.y / screen.maxY)
    let toPt : Point2d := toNormalized (meshBounds cfg) m.xyLatLong.x m.xyLatLong.y
    some (fromPt, toPt)

/-- Modelled from the spec: `findMesh`, the mesh builder (not under src/).
Emits one entry per input mapping, in input order; a projection
singularity on any sample fails the whole mesh build. -/
def findMesh (cfg : Config) (screen : ScreenDescription) :
    List Mapping → Option MeshDescription
  | [] => some []
  | m :: rest =>
    match meshEntry cfg screen m, findMesh cfg screen rest with
    | some e, some es => some (e :: es)
    | _, _ => none

/-- A successful `meshEntry` always has the configured normalization of the
raw sample position as its "to" coordinate. -/
theorem meshEntry_to_eq (cfg : Config) (screen : ScreenDescription)
    (m : Mapping) (e : Point2d × Point2d)
    (h : meshEntry cfg screen m = some e) :
    e.2 = toNormalized (meshBounds cfg) m.xyLatLong.x m.xyLatLong.y := by
  unfold meshEntry at h
  dsimp only at h
  split at h
  · exact absurd h (by simp)
  · rw [Option.some_inj] at h
    rw [← h]

/-- C5: for every mapping sequence accepted by the mesh builder, the
produced `MeshDescription` has exactly one entry per input mapping, in
input order, and entry `i`'s "to" coordinate is input sample `i`'s raw
screen position under the configured normalization. -/
theorem findMesh_spec (cfg : Config) (screen : ScreenDescription)
    (maps : List Mapping) (mesh : MeshDescription)
    (h : findMesh cfg screen maps = some mesh) :
    mesh.length = maps.length ∧
    ∀ i, (hi : i < maps.length) → (hm : i < mesh.length) →
      (mesh.get ⟨i, hm⟩).2 =
        toNormalized (meshBounds cfg) ((maps.get ⟨i, hi⟩).xyLatLong.x)
          ((maps.get ⟨i, hi⟩).xyLatLong.y) := by
  induction maps generalizing mesh with
  | nil =>
    rw [findMesh, Option.some_inj] at h
    subst h
    exact ⟨rfl, fun i hi _ => absurd hi (Nat.not_lt_zero i)⟩
  | cons m rest ih =>
    rw [findMesh] at h
    cases hm0 : meshEntry cfg screen m with
    | none =>
      rw [hm0] at h
      cases hr : findMesh cfg screen rest with
      | none => rw [hr] at h; exact absurd h (by simp)
      | some es => rw [hr] at h; exact absurd h (by simp)
    | some e =>
      rw [hm0] at h
      cases hr : findMesh cfg screen rest with
      | none => rw [hr] at h; exact absurd h (by simp)
      | some es =>
        rw [hr, Option.some_inj] at h
        subst h
        obtain ⟨ihlen, ihto⟩ := ih es hr
        refine ⟨by simp [ihlen], ?_⟩
        intro i hi hm
        cases i with
        | zero => simpa using meshEntry_to_eq cfg screen m e hm0
        | succ n =>
          have hi2 : n < rest.length := Nat.lt_of_succ_lt_succ hi
          have hm2 : n < es.length := Nat.lt_of_succ_lt_succ hm
          simpa using ihto n hi2 hm2

/-- Concrete configuration for exercising the mesh builder: left eye,
supplied screen bounds `[0,1] x [0,1]`. -/
def cfgW : Config := Config.defaultCtor ⟨0, 1, 1, 0⟩ 0 0 0 0 0

/-- Concrete screen: plane `x = 1`, left-right span from `(0,0,1)` to
`(2,0,1)`, `maxY = 3`. -/
def screenW : ScreenDescription :=
  ⟨0, 0, 0, 0, 0, 1, 0, 0, -1, ⟨0, 0, 1⟩, ⟨2, 0, 1⟩, 3⟩

/-- Concrete one-sample mapping table. -/
def mapsW : List Mapping :=
  [⟨XYLatLong.make (1 / 2) (1 / 2) 0 0, XYZ.mk 1 2 3⟩]

/-- The mesh produced on `mapsW`. -/
def meshW : MeshDescription := [((0, 2 / 3), (0, 0))]

/-- Witness for C5: on the concrete one-sample table the mesh build
succeeds, and the stated count and "to"-coordinate properties hold. -/
theorem findMesh_spec_witness :
    findMesh cfgW screenW mapsW = some meshW ∧
    (meshW.length = mapsW.length ∧
      ∀ i, (hi : i < mapsW.length) → (hm : i < meshW.length) →
        (meshW.get ⟨i, hm⟩).2 =
          toNormalized (meshBounds cfgW) ((mapsW.get ⟨i, hi⟩).xyLatLong.x)
            ((mapsW.get ⟨i, hi⟩).xyLatLong.y)) := by
  have hf : findMesh cfgW screenW mapsW = some meshW := by
    norm_num [findMesh, meshEntry, toNormalized, meshBounds, cfgW, screenW,
      mapsW, meshW, Config.defaultCtor, XYZ.projectOntoPlane, XYLatLong.make,
      RectBounds.reflectedHorizontally, Prod.ext_iff]
  exact ⟨hf, findMesh_spec cfgW screenW mapsW meshW hf⟩
